import Mathlib

/-!
Shallow embedding of the offline mutation queue and reconnect-sync mechanism
of the tabi travel-itinerary application (`src/lib/offline.ts`,
`src/lib/types.ts`, `src/hooks/useTrips.ts`), together with theorems checking
the natural-language specification of the component against the code.

Modelling conventions:
* JavaScript runtime values that flow through the untyped mutation payloads
  are embedded as the inductive `JsValue`; objects are association lists of
  string keys (the code only ever builds objects with pairwise-distinct keys).
* The durable idb-keyval store is split into its three disjoint key spaces
  (`tabi_days_*`, `tabi_items_*`, `tabi_mutation_queue`); the key strings are
  kept verbatim so that key collisions inside one space remain observable.
* `crypto.randomUUID()` is modelled as a fresh-id counter carried in the
  state (`nextId`), and `Date.now()` as the state field `now`; the uniqueness
  of `randomUUID` is an environmental assumption of the code.
* Asynchronous remote calls are modelled by an oracle
  `remote : RemoteCall → CallResult`; a call either resolves with a
  supabase-style `\x7b data, error \x7d` pair or rejects with a thrown value.
-/

namespace Tabi

/-- JavaScript runtime values as they appear in mutation payloads and
cached snapshots. `vundefined` is JavaScript `undefined`. -/
inductive JsValue where
  | vundefined : JsValue
  | vnull : JsValue
  | vbool : Bool → JsValue
  | vnum : Int → JsValue
  | vstr : String → JsValue
  | vobj : List (String × JsValue) → JsValue
  | varr : List JsValue → JsValue

/-- A JavaScript object: an association list of fields (the code only builds
objects with pairwise-distinct keys). -/
abbrev Obj := List (String × JsValue)

/-- JavaScript truthiness (`if (x)`, `x || y`). `NaN` does not occur in the
embedded values. -/
def jsTruthy : JsValue → Bool
  | .vundefined => false
  | .vnull => false
  | .vbool b => b
  | .vnum n => n != 0
  | .vstr s => s != ""
  | .vobj _ => true
  | .varr _ => true

/-- JavaScript `a || b`. -/
def jsOr (a b : JsValue) : JsValue := if jsTruthy a then a else b

/-- JavaScript `a ?? b` (nullish coalescing). -/
def jsNullish (a b : JsValue) : JsValue :=
  match a with
  | .vundefined => b
  | .vnull => b
  | v => v

/-- Property access `o.k` on an object: the first binding for `k`, or
`undefined` when absent. -/
def objGet (o : Obj) (k : String) : JsValue :=
  match o.find? (fun p => p.1 == k) with
  | some p => p.2
  | none => .vundefined

/-- Property access `v.k` on an arbitrary value: fields of objects, and
`undefined` on primitives (property access on a primitive yields the
properties of its wrapper, none of which the code uses). -/
def objGetV (v : JsValue) (k : String) : JsValue :=
  match v with
  | .vobj o => objGet o k
  | _ => .vundefined

/-- Rest-destructuring `const \x7b k, ...rest \x7d = o`: the object without key
`k`. -/
def objRemove (o : Obj) (k : String) : Obj :=
  o.filter (fun p => !(p.1 == k))

/-- JavaScript spread `\x7b ...a, ...b \x7d` for objects with distinct keys:
keys of `a` in order, values overridden by `b` where present, then the keys
of `b` not in `a`, in order. -/
def objMerge (a b : Obj) : Obj :=
  a.map (fun p =>
    match b.find? (fun q => q.1 == p.1) with
    | some q => (p.1, q.2)
    | none => p) ++
  b.filter (fun q => !(a.any (fun p => p.1 == q.1)))

/-- Strict equality `v === s` of a runtime value against a string literal. -/
def jsIsStr (v : JsValue) (s : String) : Bool :=
  match v with
  | .vstr t => t == s
  | _ => false

/-- Numeric coercion of a `sort_order` field; the application only stores
numbers there. -/
def objNum (v : JsValue) : Int :=
  match v with
  | .vnum n => n
  | _ => 0

/-- JavaScript spread `\x7b ...v, ...u \x7d` where `v` may be any value: spread
of a primitive contributes no enumerable properties. -/
def jsSpreadMerge (v : JsValue) (u : Obj) : JsValue :=
  match v with
  | .vobj o => .vobj (objMerge o u)
  | _ => .vobj (objMerge [] u)

/-- Pair each element of a list with its index, starting at `i`
(`array.map((x, index) => ...)`). -/
def withIndex (i : Nat) : List α → List (Nat × α)
  | [] => []
  | x :: xs => (i, x) :: withIndex (i + 1) xs

/-- Stable insertion of `x` into a list ascending by `key`: `x` goes after
existing elements with an equal key, as JavaScript's stable `sort` leaves
equal elements in encounter order. -/
def insertByKey (key : α → Int) (x : α) : List α → List α
  | [] => [x]
  | y :: ys => if key y ≤ key x then y :: insertByKey key x ys else x :: y :: ys

/-- Stable ascending sort by an integer key, modelling
`array.sort((a, b) => key(a) - key(b))` (JavaScript `Array.prototype.sort`
is stable). -/
def sortByKey (key : α → Int) : List α → List α
  | [] => []
  | x :: xs => insertByKey key x (sortByKey key xs)

/-- Lookup in one key space of the durable idb-keyval store. -/
def storeGet (st : List (String × α)) (k : String) : Option α :=
  match st with
  | [] => none
  | (k', v) :: rest => if k' == k then some v else storeGet rest k

/-- `idb-keyval` `set`: replace whatever was stored under `k` with `v`. -/
def storePut (st : List (String × α)) (k : String) (v : α) : List (String × α) :=
  (k, v) :: st.filter (fun p => !(p.1 == k))

/-- The four mutation kinds of `QueuedMutation.type` in `offline.ts`. -/
inductive MutationType where
  | insert : MutationType
  | update : MutationType
  | delete : MutationType
  | reorder : MutationType
deriving DecidableEq

/-- `QueuedMutation` from `offline.ts`. The opaque `crypto.randomUUID()` id
is modelled as a `Nat` drawn from the fresh-id counter. -/
structure QueuedMutation where
  id : Nat
  type : MutationType
  table : String
  payload : Obj
  timestamp : Nat

/-- The argument of `queueMutation`: a mutation without `id` and
`timestamp` (`Omit<QueuedMutation, 'id' | 'timestamp'>`). -/
structure MutationInput where
  type : MutationType
  table : String
  payload : Obj

/-- The durable offline store (`idb-keyval`) plus the environment the code
reads: the three disjoint key spaces used by `offline.ts`, the fresh-id
supply modelling `crypto.randomUUID()`, and the clock modelling
`Date.now()`. `queue = none` models the absence of the `tabi_mutation_queue`
key (`get` returns `undefined`). -/
structure OfflineState where
  cacheDays : List (String × List JsValue)
  cacheItems : List (String × List JsValue)
  queue : Option (List QueuedMutation)
  nextId : Nat
  now : Nat

/-- `cacheTripDays` from `offline.ts`: `set('tabi_days_' + tripId, days)`. -/
def cacheTripDays (tripId : String) (days : List JsValue) (s : OfflineState) : OfflineState :=
  { s with cacheDays := storePut s.cacheDays ("tabi_days_" ++ tripId) days }

/-- `getCachedTripDays` from `offline.ts`. -/
def getCachedTripDays (tripId : String) (s : OfflineState) : Option (List JsValue) :=
  storeGet s.cacheDays ("tabi_days_" ++ tripId)

/-- `cacheItems` from `offline.ts`: `set('tabi_items_' + dayId, items)`. -/
def cacheItems (dayId : String) (items : List JsValue) (s : OfflineState) : OfflineState :=
  { s with cacheItems := storePut s.cacheItems ("tabi_items_" ++ dayId) items }

/-- `getCachedItems` from `offline.ts`. -/
def getCachedItems (dayId : String) (s : OfflineState) : Option (List JsValue) :=
  storeGet s.cacheItems ("tabi_items_" ++ dayId)

/-- `queueMutation` from `offline.ts`: read the queue (defaulting to `[]`),
push an entry with a fresh id and the current time, and write it back. -/
def queueMutation (m : MutationInput) (s : OfflineState) : OfflineState :=
  let queue := s.queue.getD []
  let entry : QueuedMutation :=
    { id := s.nextId, type := m.type, table := m.table
      payload := m.payload, timestamp := s.now }
  { s with queue := some (queue ++ [entry]), nextId := s.nextId + 1 }

/-- `getQueuedMutations` from `offline.ts`: the stored queue or `[]`. -/
def getQueuedMutations (s : OfflineState) : List QueuedMutation :=
  s.queue.getD []

/-- `removeMutation` from `offline.ts`: read the queue (defaulting to `[]`),
filter out entries with the given id, and write the result back. -/
def removeMutation (id : Nat) (s : OfflineState) : OfflineState :=
  let queue := s.queue.getD []
  { s with queue := some (queue.filter (fun m => m.id != id)) }

/-! ### The remote store (supabase) as an oracle -/

/-- The remote operations the offline subsystem issues, as built by
`flushMutationQueue` and the data-access hooks: `insert(table, payload)`,
`update(table, updates).eq('id', id)`, `delete(table).eq('id', id)`, and
`select(table)` (used by `fetchTrips`). -/
inductive RemoteCall where
  | insert : String → Obj → RemoteCall
  | update : String → Obj → JsValue → RemoteCall
  | delete : String → JsValue → RemoteCall
  | select : String → RemoteCall

/-- Outcome of awaiting one remote call: the promise either resolves with a
supabase-style `\x7b data, error \x7d` pair, or rejects with a thrown value. -/
inductive CallResult where
  | resolved : Option JsValue → Option JsValue → CallResult
  | rejected : JsValue → CallResult

/-- The error a caller observes from a remote call: the rejection value, or
the non-null `error` member of a resolved result. -/
def resultError : CallResult → Option JsValue
  | .resolved _ e => e
  | .rejected e => some e

/-- A remote backend: a deterministic oracle answering each call. -/
abbrev Remote := RemoteCall → CallResult

/-! ### flushMutationQueue -/

/-- The `for (const item of items)` loop of the `reorder` case of
`flushMutationQueue`: issue `update(\x7bsort_order\x7d).eq('id', item.id)` per
item. The awaited result is not destructured, so a resolved result — even
one carrying a non-null `error` — is ignored; only a rejected promise
throws, which aborts the loop. Returns the thrown value (if any) and the
calls made. -/
def flushReorderLoop (remote : Remote) (table : String) :
    List JsValue → Option JsValue × List RemoteCall
  | [] => (none, [])
  | v :: rest =>
    let c := RemoteCall.update table [("sort_order", objGetV v "sort_order")] (objGetV v "id")
    match remote c with
    | .rejected e => (some e, [c])
    | .resolved _ _ =>
      let (t, cs) := flushReorderLoop remote table rest
      (t, c :: cs)

/-- The body of the `try` block of `flushMutationQueue` for one mutation:
dispatch on `mutation.type`, returning whether the block completed without
throwing, together with the remote calls issued. The `insert`, `update` and
`delete` cases check the resolved `error` member and throw on it; the
`reorder` case does not (see `flushReorderLoop`). A `reorder` payload whose
`items` member is not an array makes the `for...of` throw a `TypeError`,
modelled as plain failure. -/
def applyMutation (remote : Remote) (m : QueuedMutation) : Bool × List RemoteCall :=
  match m.type with
  | .insert =>
    let c := RemoteCall.insert m.table m.payload
    match remote c with
    | .resolved _ none => (true, [c])
    | .resolved _ (some _) => (false, [c])
    | .rejected _ => (false, [c])
  | .update =>
    let c := RemoteCall.update m.table (objRemove m.payload "id") (objGet m.payload "id")
    match remote c with
    | .resolved _ none => (true, [c])
    | .resolved _ (some _) => (false, [c])
    | .rejected _ => (false, [c])
  | .delete =>
    let c := RemoteCall.delete m.table (objGet m.payload "id")
    match remote c with
    | .resolved _ none => (true, [c])
    | .resolved _ (some _) => (false, [c])
    | .rejected _ => (false, [c])
  | .reorder =>
    match objGet m.payload "items" with
    | .varr items =>
      let (t, cs) := flushReorderLoop remote m.table items
      (t.isNone, cs)
    | _ => (false, [])

/-- Everything `flushMutationQueue` produces or mutates: the returned
`\x7b flushed, failed \x7d` summary, the durable store after the drain, and the
remote calls issued. -/
structure FlushOut where
  flushed : Nat
  failed : Nat
  state : OfflineState
  calls : List RemoteCall

/-- The `for (const mutation of queue)` loop of `flushMutationQueue` over the
snapshot read at entry: on a completed `try` block, `removeMutation` then
`flushed++`; on a caught throw, `failed++` and the mutation is left in the
store. -/
def flushLoop (remote : Remote) : List QueuedMutation → OfflineState → FlushOut
  | [], s => ⟨0, 0, s, []⟩
  | m :: rest, s =>
    let r := applyMutation remote m
    if r.1 then
      let out := flushLoop remote rest (removeMutation m.id s)
      ⟨out.flushed + 1, out.failed, out.state, r.2 ++ out.calls⟩
    else
      let out := flushLoop remote rest s
      ⟨out.flushed, out.failed + 1, out.state, r.2 ++ out.calls⟩

/-- `flushMutationQueue` from `offline.ts`: read the queue snapshot, return
`\x7b flushed: 0, failed: 0 \x7d` immediately when it is empty, otherwise replay
it in order. -/
def flushMutationQueue (remote : Remote) (s : OfflineState) : FlushOut :=
  match getQueuedMutations s with
  | [] => ⟨0, 0, s, []⟩
  | m :: rest => flushLoop remote (m :: rest) s

/-! ### queueMutation over a fallible durable store (for the persistence
failure claim) -/

/-- `queueMutation` with the two `idb-keyval` calls it awaits made fallible:
`getResult` is the outcome of `get(QUEUE_KEY)` and `setOutcome q` the
outcome of `set(QUEUE_KEY, q)`. The source has no `try`/`catch`, so a
rejection from either store call propagates to `queueMutation`'s caller;
on success the new queue is returned. -/
def queueMutationFallible (getResult : Except JsValue (Option (List QueuedMutation)))
    (setOutcome : List QueuedMutation → Except JsValue Unit)
    (m : MutationInput) (freshId now : Nat) : Except JsValue (List QueuedMutation) :=
  match getResult with
  | .error e => .error e
  | .ok q =>
    let queue := q.getD []
    let entry : QueuedMutation :=
      { id := freshId, type := m.type, table := m.table
        payload := m.payload, timestamp := now }
    let newQueue := queue ++ [entry]
    match setOutcome newQueue with
    | .error e => .error e
    | .ok _ => .ok newQueue

/-! ### Data-access hooks (`useTrips` / `useTripDays` / `useItems`) -/

/-- Everything one data-access hook write operation produces or mutates: the
value thrown to the caller (if any), the hook's in-memory UI state after the
call, the durable offline store after the call, and the remote calls
awaited. -/
structure OpResult (σ : Type) where
  thrown : Option JsValue
  state : σ
  off : OfflineState
  calls : List RemoteCall

/-- The recurring online write pattern
`const \x7b error \x7d = await <call>; if (error) throw error; setState(next)`:
a rejected promise or a resolved non-null `error` is thrown and the state is
left at `stInit`; otherwise the state becomes `stOk`. -/
def onlineWrite (remote : Remote) (c : RemoteCall) (stInit stOk : σ)
    (off : OfflineState) : OpResult σ :=
  match remote c with
  | .rejected e => ⟨some e, stInit, off, [c]⟩
  | .resolved _ (some e) => ⟨some e, stInit, off, [c]⟩
  | .resolved _ none => ⟨none, stOk, off, [c]⟩

/-- The online insert pattern
`const \x7b data, error \x7d = await <call>; if (error) throw error;
if (data) setState(... data ...)`: like `onlineWrite` but the new state
depends on the returned row. -/
def onlineInsert (remote : Remote) (c : RemoteCall) (stInit : σ)
    (stOk : Option JsValue → σ) (off : OfflineState) : OpResult σ :=
  match remote c with
  | .rejected e => ⟨some e, stInit, off, [c]⟩
  | .resolved _ (some e) => ⟨some e, stInit, off, [c]⟩
  | .resolved d none => ⟨none, stOk d, off, [c]⟩

/-- The payload `createTrip` builds: the timezone default chain
`trip.timezone || Intl.DateTimeFormat().resolvedOptions().timeZone ||
'Asia/Tokyo'` (the device timezone is the `deviceTz` parameter), then
`\x7b ...trip, timezone, created_by: userId \x7d`. -/
def createTripPayload (deviceTz uid : String) (trip : Obj) : Obj :=
  let tz : String :=
    match objGet trip "timezone" with
    | .vstr s => if s == "" then (if deviceTz == "" then "Asia/Tokyo" else deviceTz) else s
    | _ => if deviceTz == "" then "Asia/Tokyo" else deviceTz
  objMerge trip [("timezone", .vstr tz), ("created_by", .vstr uid)]

/-- `createTrip` from `useTrips`. Offline: enqueue the insert and return
`null` — the source applies no optimistic update to `trips` in this branch.
Online: insert, throwing any remote error, then `await fetchTrips()`, which
replaces the state with the freshly selected rows (a fetch error is logged,
not thrown; `data` from a select is an array of rows or `null`). -/
def createTrip (online : Bool) (remote : Remote) (userId : Option String)
    (deviceTz : String) (trip : Obj) (trips : List JsValue)
    (off : OfflineState) : OpResult (List JsValue) :=
  match userId with
  | none => ⟨none, trips, off, []⟩
  | some uid =>
    let tripPayload := createTripPayload deviceTz uid trip
    match online with
    | false => ⟨none, trips, queueMutation ⟨.insert, "trips", tripPayload⟩ off, []⟩
    | true =>
      let c := RemoteCall.insert "trips" tripPayload
      match remote c with
      | .rejected e => ⟨some e, trips, off, [c]⟩
      | .resolved _ (some e) => ⟨some e, trips, off, [c]⟩
      | .resolved _ none =>
        let fc := RemoteCall.select "trips"
        match remote fc with
        | .rejected e => ⟨some e, trips, off, [c, fc]⟩
        | .resolved (some (.varr rows)) _ => ⟨none, rows, off, [c, fc]⟩
        | .resolved _ _ => ⟨none, trips, off, [c, fc]⟩

/-- `updateTrip` from `useTrips`: offline, enqueue
`\x7b type: 'update', table: 'trips', payload: \x7b id: tripId, ...updates \x7d \x7d`
and apply the optimistic map; online, update remotely, throw any error, and
apply the same map on success. -/
def updateTrip (online : Bool) (remote : Remote) (tripId : String)
    (updates : Obj) (trips : List JsValue) (off : OfflineState) :
    OpResult (List JsValue) :=
  let updated := trips.map (fun t =>
    if jsIsStr (objGetV t "id") tripId then jsSpreadMerge t updates else t)
  match online with
  | false =>
    ⟨none, updated,
     queueMutation ⟨.update, "trips", objMerge [("id", .vstr tripId)] updates⟩ off, []⟩
  | true => onlineWrite remote (.update "trips" updates (.vstr tripId)) trips updated off

/-- `deleteTrip` from `useTrips`. -/
def deleteTrip (online : Bool) (remote : Remote) (tripId : String)
    (trips : List JsValue) (off : OfflineState) : OpResult (List JsValue) :=
  let remaining := trips.filter (fun t => !(jsIsStr (objGetV t "id") tripId))
  match online with
  | false =>
    ⟨none, remaining,
     queueMutation ⟨.delete, "trips", [("id", .vstr tripId)]⟩ off, []⟩
  | true => onlineWrite remote (.delete "trips" (.vstr tripId)) trips remaining off

/-- `updateDay` from `useTripDays`. -/
def updateDay (online : Bool) (remote : Remote) (dayId : String)
    (updates : Obj) (days : List JsValue) (off : OfflineState) :
    OpResult (List JsValue) :=
  let updated := days.map (fun d =>
    if jsIsStr (objGetV d "id") dayId then jsSpreadMerge d updates else d)
  match online with
  | false =>
    ⟨none, updated,
     queueMutation ⟨.update, "trip_days", objMerge [("id", .vstr dayId)] updates⟩ off, []⟩
  | true => onlineWrite remote (.update "trip_days" updates (.vstr dayId)) days updated off

/-- The `newItem` record `addItem` builds: defaults for `day_id`, `title`,
`category`, `status`, `sort_order` (one past the current maximum, or 0 when
the list is empty) and `currency`, then `...item` spread over them. -/
def addItemRecord (dayId : Option String) (item : Obj) (items : List JsValue) : Obj :=
  let maxSort : Int :=
    match items.map (fun i => objNum (objGetV i "sort_order")) with
    | [] => 0
    | x :: xs => xs.foldl max x + 1
  objMerge
    [("day_id", match dayId with | some dv => .vstr dv | none => .vundefined),
     ("title", jsOr (objGet item "title") (.vstr "New Item")),
     ("category", jsOr (objGet item "category") (.vstr "activity")),
     ("status", jsOr (objGet item "status") (.vstr "planned")),
     ("sort_order", jsNullish (objGet item "sort_order") (.vnum maxSort)),
     ("currency", jsOr (objGet item "currency") (.vstr "JPY"))]
    item

/-- The `(a, b) => a.sort_order - b.sort_order` comparator key. -/
def itemSortKey (v : JsValue) : Int := objNum (objGetV v "sort_order")

/-- `addItem` from `useItems`. Offline: enqueue the insert and return `null`
— the source applies no optimistic update to `items` in this branch.
Online: insert with `.select().single()`, throw any remote error, and on a
truthy returned row append it and re-sort by `sort_order`. -/
def addItem (online : Bool) (remote : Remote) (dayId : Option String)
    (item : Obj) (items : List JsValue) (off : OfflineState) :
    OpResult (List JsValue) :=
  let newItem := addItemRecord dayId item items
  match online with
  | false =>
    ⟨none, items, queueMutation ⟨.insert, "itinerary_items", newItem⟩ off, []⟩
  | true =>
    onlineInsert remote (.insert "itinerary_items" newItem) items
      (fun d =>
        match d with
        | some v => if jsTruthy v then sortByKey itemSortKey (items ++ [v]) else items
        | none => items)
      off

/-- `updateItem` from `useItems`. -/
def updateItem (online : Bool) (remote : Remote) (itemId : String)
    (updates : Obj) (items : List JsValue) (off : OfflineState) :
    OpResult (List JsValue) :=
  let updated := items.map (fun i =>
    if jsIsStr (objGetV i "id") itemId then jsSpreadMerge i updates else i)
  match online with
  | false =>
    ⟨none, updated,
     queueMutation ⟨.update, "itinerary_items", objMerge [("id", .vstr itemId)] updates⟩ off, []⟩
  | true => onlineWrite remote (.update "itinerary_items" updates (.vstr itemId)) items updated off

/-- `deleteItem` from `useItems`. -/
def deleteItem (online : Bool) (remote : Remote) (itemId : String)
    (items : List JsValue) (off : OfflineState) : OpResult (List JsValue) :=
  let remaining := items.filter (fun i => !(jsIsStr (objGetV i "id") itemId))
  match online with
  | false =>
    ⟨none, remaining,
     queueMutation ⟨.delete, "itinerary_items", [("id", .vstr itemId)]⟩ off, []⟩
  | true => onlineWrite remote (.delete "itinerary_items" (.vstr itemId)) items remaining off

/-- The `updates` array `reorderItems` builds:
`reordered.map((item, index) => (\x7b id: item.id, sort_order: index \x7d))`. -/
def reorderUpdates (reordered : List JsValue) : List Obj :=
  (withIndex 0 reordered).map (fun p =>
    [("id", objGetV p.2 "id"), ("sort_order", .vnum (p.1 : Int))])

/-- The optimistic state `reorderItems` sets before persisting:
`reordered.map((item, index) => (\x7b ...item, sort_order: index \x7d))`. -/
def reorderOptimistic (reordered : List JsValue) : List JsValue :=
  (withIndex 0 reordered).map (fun p => jsSpreadMerge p.2 [("sort_order", .vnum (p.1 : Int))])

/-- The online persistence loop of `reorderItems`: one awaited
`update(\x7b sort_order \x7d).eq('id', id)` per entry whose result is not
inspected — only a rejected promise throws (aborting the loop); a resolved
result, with or without an `error` member, is ignored. -/
def reorderLoop (remote : Remote) : List Obj → Option JsValue × List RemoteCall
  | [] => (none, [])
  | u :: rest =>
    let c := RemoteCall.update "itinerary_items" [("sort_order", objGet u "sort_order")] (objGet u "id")
    match remote c with
    | .rejected e => (some e, [c])
    | .resolved _ _ =>
      let (t, cs) := reorderLoop remote rest
      (t, c :: cs)

/-- `reorderItems` from `useItems`: the optimistic reordering is applied to
the in-memory state before the online/offline branch, so it is in place in
every outcome; offline, the `reorder` mutation is enqueued; online, the
per-item updates are issued without checking their results. -/
def reorderItems (online : Bool) (remote : Remote) (reordered : List JsValue)
    (off : OfflineState) : OpResult (List JsValue) :=
  let updates := reorderUpdates reordered
  let optimistic := reorderOptimistic reordered
  match online with
  | false =>
    ⟨none, optimistic,
     queueMutation ⟨.reorder, "itinerary_items",
       [("items", .varr (updates.map JsValue.vobj))]⟩ off, []⟩
  | true =>
    let (t, cs) := reorderLoop remote updates
    ⟨t, optimistic, off, cs⟩

/-! ### Sequences of enqueue calls -/

/-- A sequence of `queueMutation` calls, in order. -/
def enqueueList (ms : List MutationInput) (s : OfflineState) : OfflineState :=
  match ms with
  | [] => s
  | m :: rest => enqueueList rest (queueMutation m s)

/-- The queue entries a sequence of enqueues appends, with consecutive fresh
ids starting at `nextId` and the enqueue-time stamp `now`. -/
def mkEntries (ms : List MutationInput) (nextId now : Nat) : List QueuedMutation :=
  match ms with
  | [] => []
  | m :: rest => ⟨nextId, m.type, m.table, m.payload, now⟩ :: mkEntries rest (nextId + 1) now

/-- Well-formedness of the stored queue under the fresh-id supply: ids are
pairwise distinct and all below the next fresh id (for `crypto.randomUUID()`
this is the environmental uniqueness assumption). -/
def QueueWF (s : OfflineState) : Prop :=
  ((getQueuedMutations s).map (fun m => m.id)).Nodup ∧
  ∀ m ∈ getQueuedMutations s, m.id < s.nextId

/-! ### Shared helper lemmas -/

/-- Filtering with the same predicate twice equals filtering once. -/
theorem filter_twice (p : α → Bool) (l : List α) :
    (l.filter p).filter p = l.filter p :=
  List.filter_eq_self.mpr (fun _ ha => List.of_mem_filter ha)

/-- Concrete fixtures shared by several witnesses: the pristine offline
store. -/
def emptyOff : OfflineState := ⟨[], [], none, 0, 0⟩

/-- A remote backend on which every call succeeds. -/
def remoteAllOk : Remote := fun _ => .resolved none none

/-- A remote backend on which every call resolves with a non-null `error`
member (the supabase way of reporting a failure). -/
def remoteAllError : Remote := fun _ => .resolved none (some (.vstr "boom"))

/-! ### Claims -/

/-- Claim C8: a cache write under a key followed immediately by a cache read
of the same key returns exactly the written snapshot, and the write
wholesale replaces any value previously stored under that key, for both the
trip-days and the items key spaces. -/
theorem cache_write_read_roundtrip (tripId dayId : String)
    (days items priorDays priorItems : List JsValue) (s : OfflineState) :
    getCachedTripDays tripId (cacheTripDays tripId days s) = some days ∧
    cacheTripDays tripId days (cacheTripDays tripId priorDays s) =
      cacheTripDays tripId days s ∧
    getCachedItems dayId (cacheItems dayId items s) = some items ∧
    cacheItems dayId items (cacheItems dayId priorItems s) =
      cacheItems dayId items s := by
  refine ⟨?_, ?_, ?_, ?_⟩
  · simp [getCachedTripDays, cacheTripDays, storeGet, storePut]
  · simp [cacheTripDays, storePut, filter_twice]
  · simp [getCachedItems, cacheItems, storeGet, storePut]
  · simp [cacheItems, storePut, filter_twice]

/-- Claim C9: `removeMutation` is idempotent — a second removal of the same
id leaves the whole store unchanged — and removing an id that is not present
in the queue leaves the queue contents unchanged (and, being a total
function, it never throws). -/
theorem remove_idempotent_and_total (id : Nat) (s : OfflineState) :
    removeMutation id (removeMutation id s) = removeMutation id s ∧
    (id ∉ (getQueuedMutations s).map (fun m => m.id) →
      getQueuedMutations (removeMutation id s) = getQueuedMutations s) := by
  constructor
  · simp [removeMutation, filter_twice]
  · intro h
    simp only [removeMutation, getQueuedMutations, Option.getD_some]
    exact List.filter_eq_self.mpr (fun m hm => by
      simp only [bne_iff_ne, ne_eq]
      exact fun he => h (he ▸ List.mem_map_of_mem (fun m => m.id) hm))

/-- Witness for C9 at a concrete store: id 7 is absent from the queue
holding the single mutation with id 3. -/
theorem remove_idempotent_and_total_witness :
    removeMutation 7 (removeMutation 7 ⟨[], [], some [⟨3, .insert, "trips", [], 0⟩], 4, 9⟩) =
      removeMutation 7 ⟨[], [], some [⟨3, .insert, "trips", [], 0⟩], 4, 9⟩ ∧
    getQueuedMutations (removeMutation 7 ⟨[], [], some [⟨3, .insert, "trips", [], 0⟩], 4, 9⟩) =
      getQueuedMutations ⟨[], [], some [⟨3, .insert, "trips", [], 0⟩], 4, 9⟩ :=
  ⟨(remove_idempotent_and_total 7 _).1,
   (remove_idempotent_and_total 7 _).2 (by decide)⟩

/-- Claim C5: a drain of an empty queue performs zero remote operations,
returns `\x7b flushed: 0, failed: 0 \x7d`, and leaves the store untouched. -/
theorem drain_empty_queue (remote : Remote) (s : OfflineState)
    (h : getQueuedMutations s = []) :
    flushMutationQueue remote s = ⟨0, 0, s, []⟩ := by
  simp [flushMutationQueue, h]

/-- Witness for C5 on the pristine store. -/
theorem drain_empty_queue_witness :
    flushMutationQueue remoteAllOk emptyOff = ⟨0, 0, emptyOff, []⟩ :=
  drain_empty_queue remoteAllOk emptyOff rfl

/-- Per-iteration counting of the drain loop: each pending mutation
increments exactly one of the two counters. -/
theorem flushLoop_counts (remote : Remote) (pending : List QueuedMutation)
    (s : OfflineState) :
    (flushLoop remote pending s).flushed + (flushLoop remote pending s).failed =
      pending.length := by
  induction pending generalizing s with
  | nil => simp [flushLoop]
  | cons m rest ih =>
    cases h : (applyMutation remote m).1 with
    | true =>
      have := ih (removeMutation m.id s)
      simp [flushLoop, h]
      omega
    | false =>
      have := ih s
      simp [flushLoop, h]
      omega

/-- Claim C10: the summary returned by a drain fully accounts for the queue
snapshot it started from: `flushed + failed` equals the number of mutations
present when the drain began. -/
theorem drain_accounts_for_queue (remote : Remote) (s : OfflineState) :
    (flushMutationQueue remote s).flushed + (flushMutationQueue remote s).failed =
      (getQueuedMutations s).length := by
  rcases hq : getQueuedMutations s with _ | ⟨m, rest⟩
  · simp [flushMutationQueue, hq]
  · simpa [flushMutationQueue, hq] using flushLoop_counts remote (m :: rest) s

/-- Claim C7: when the durable `set` underlying `queueMutation` fails, the
failure propagates to the caller (the returned promise rejects with that
error) rather than completing silently. -/
theorem enqueue_persist_failure_propagates
    (getResult : Except JsValue (Option (List QueuedMutation)))
    (setOutcome : List QueuedMutation → Except JsValue Unit)
    (m : MutationInput) (freshId now : Nat)
    (q : Option (List QueuedMutation)) (e : JsValue)
    (hg : getResult = .ok q)
    (hs : setOutcome (q.getD [] ++ [⟨freshId, m.type, m.table, m.payload, now⟩]) = .error e) :
    queueMutationFallible getResult setOutcome m freshId now = .error e := by
  subst hg
  simp [queueMutationFallible, hs]

/-- Witness for C7: a store whose write rejects with a quota error. -/
theorem enqueue_persist_failure_propagates_witness :
    queueMutationFallible (.ok none) (fun _ => .error (.vstr "quota"))
      ⟨.insert, "trips", []⟩ 0 0 = .error (.vstr "quota") :=
  enqueue_persist_failure_propagates (.ok none) (fun _ => .error (.vstr "quota"))
    ⟨.insert, "trips", []⟩ 0 0 none (.vstr "quota") rfl rfl

/-- Claim C1 (failing input): a queue holding one `reorder` mutation, drained
against a backend whose update call resolves with a non-null `error`. The
claim (and §4.4 of the spec) requires a remote error of any kind to leave the
mutation queued and increment `failed`; the `reorder` case of
`flushMutationQueue` never reads the `error` member of its per-item update
results — unlike the `insert`/`update`/`delete` cases, which all do
`if (error) throw error` — so the failed reorder is counted as flushed and
removed from the queue. The same backend on an `update` mutation shows the
intended behaviour of the sibling cases. -/
theorem flush_reorder_ignores_reported_error :
    (flushMutationQueue remoteAllError
        ⟨[], [], some [⟨7, .reorder, "itinerary_items",
          [("items", .varr [.vobj [("id", .vstr "a"), ("sort_order", .vnum 0)]])], 0⟩], 9, 0⟩).flushed = 1 ∧
    (flushMutationQueue remoteAllError
        ⟨[], [], some [⟨7, .reorder, "itinerary_items",
          [("items", .varr [.vobj [("id", .vstr "a"), ("sort_order", .vnum 0)]])], 0⟩], 9, 0⟩).failed = 0 ∧
    getQueuedMutations (flushMutationQueue remoteAllError
        ⟨[], [], some [⟨7, .reorder, "itinerary_items",
          [("items", .varr [.vobj [("id", .vstr "a"), ("sort_order", .vnum 0)]])], 0⟩], 9, 0⟩).state = [] ∧
    (flushMutationQueue remoteAllError
        ⟨[], [], some [⟨7, .reorder, "itinerary_items",
          [("items", .varr [.vobj [("id", .vstr "a"), ("sort_order", .vnum 0)]])], 0⟩], 9, 0⟩).calls =
      [RemoteCall.update "itinerary_items" [("sort_order", .vnum 0)] (.vstr "a")] ∧
    (flushMutationQueue remoteAllError
        ⟨[], [], some [⟨8, .update, "itinerary_items",
          [("id", .vstr "a"), ("title", .vstr "x")], 0⟩], 9, 0⟩).flushed = 0 ∧
    (flushMutationQueue remoteAllError
        ⟨[], [], some [⟨8, .update, "itinerary_items",
          [("id", .vstr "a"), ("title", .vstr "x")], 0⟩], 9, 0⟩).failed = 1 ∧
    getQueuedMutations (flushMutationQueue remoteAllError
        ⟨[], [], some [⟨8, .update, "itinerary_items",
          [("id", .vstr "a"), ("title", .vstr "x")], 0⟩], 9, 0⟩).state =
      [⟨8, .update, "itinerary_items", [("id", .vstr "a"), ("title", .vstr "x")], 0⟩] :=
  ⟨rfl, rfl, rfl, rfl, rfl, rfl, rfl⟩

/-- Claim C3: with exactly three queued mutations of which the second fails
remotely and the first and third succeed, the drain returns
`\x7b flushed: 2, failed: 1 \x7d`, removes the two successes, keeps the failed
mutation, and a subsequent enqueue lands after it. -/
theorem drain_three_second_fails (remote : Remote) (m1 m2 m3 : QueuedMutation)
    (mi : MutationInput) (s : OfflineState)
    (hq : s.queue = some [m1, m2, m3])
    (h12 : m1.id ≠ m2.id) (h13 : m1.id ≠ m3.id) (h23 : m2.id ≠ m3.id)
    (h1 : (applyMutation remote m1).1 = true)
    (h2 : (applyMutation remote m2).1 = false)
    (h3 : (applyMutation remote m3).1 = true) :
    (flushMutationQueue remote s).flushed = 2 ∧
    (flushMutationQueue remote s).failed = 1 ∧
    getQueuedMutations (flushMutationQueue remote s).state = [m2] ∧
    getQueuedMutations (queueMutation mi (flushMutationQueue remote s).state) =
      [m2, ⟨(flushMutationQueue remote s).state.nextId, mi.type, mi.table,
            mi.payload, (flushMutationQueue remote s).state.now⟩] := by
  have b21 : (m2.id != m1.id) = true := bne_iff_ne.mpr (Ne.symm h12)
  have b31 : (m3.id != m1.id) = true := bne_iff_ne.mpr (Ne.symm h13)
  have b23 : (m2.id != m3.id) = true := bne_iff_ne.mpr h23
  have hgq : getQueuedMutations s = [m1, m2, m3] := by
    simp [getQueuedMutations, hq]
  have e1 : removeMutation m1.id s = { s with queue := some [m2, m3] } := by
    simp [removeMutation, hq, List.filter_cons, b21, b31, bne_self_eq_false]
  have e2 : removeMutation m3.id { s with queue := some [m2, m3] } =
      { s with queue := some [m2] } := by
    simp [removeMutation, List.filter_cons, b23, bne_self_eq_false]
  have hmq : flushMutationQueue remote s = flushLoop remote [m1, m2, m3] s := by
    simp only [flushMutationQueue, hgq]
  have hflushed : (flushLoop remote [m1, m2, m3] s).flushed = 2 := by
    simp [flushLoop, h1, h2, h3, e1, e2]
  have hfailed : (flushLoop remote [m1, m2, m3] s).failed = 1 := by
    simp [flushLoop, h1, h2, h3, e1, e2]
  have hstate : (flushLoop remote [m1, m2, m3] s).state = { s with queue := some [m2] } := by
    simp [flushLoop, h1, h2, h3, e1, e2]
  refine ⟨?_, ?_, ?_, ?_⟩
  · rw [hmq]; exact hflushed
  · rw [hmq]; exact hfailed
  · rw [hmq, hstate]; rfl
  · rw [hmq, hstate]
    simp [getQueuedMutations, queueMutation]

/-- Witness for C3: ids 1, 2, 3; a backend that rejects exactly the update
call (so the second, `update`-typed mutation fails and the `insert`/`delete`
ones succeed); afterwards a new mutation is enqueued behind the survivor. -/
theorem drain_three_second_fails_witness :
    (flushMutationQueue
        (fun c => match c with
          | .update _ _ _ => .resolved none (some (.vstr "err"))
          | _ => .resolved none none)
        ⟨[], [], some [⟨1, .insert, "trips", [("name", .vstr "a")], 0⟩,
          ⟨2, .update, "trips", [("id", .vstr "t1"), ("name", .vstr "b")], 0⟩,
          ⟨3, .delete, "trips", [("id", .vstr "t2")], 0⟩], 10, 5⟩).flushed = 2 ∧
    (flushMutationQueue
        (fun c => match c with
          | .update _ _ _ => .resolved none (some (.vstr "err"))
          | _ => .resolved none none)
        ⟨[], [], some [⟨1, .insert, "trips", [("name", .vstr "a")], 0⟩,
          ⟨2, .update, "trips", [("id", .vstr "t1"), ("name", .vstr "b")], 0⟩,
          ⟨3, .delete, "trips", [("id", .vstr "t2")], 0⟩], 10, 5⟩).failed = 1 ∧
    getQueuedMutations (flushMutationQueue
        (fun c => match c with
          | .update _ _ _ => .resolved none (some (.vstr "err"))
          | _ => .resolved none none)
        ⟨[], [], some [⟨1, .insert, "trips", [("name", .vstr "a")], 0⟩,
          ⟨2, .update, "trips", [("id", .vstr "t1"), ("name", .vstr "b")], 0⟩,
          ⟨3, .delete, "trips", [("id", .vstr "t2")], 0⟩], 10, 5⟩).state =
      [⟨2, .update, "trips", [("id", .vstr "t1"), ("name", .vstr "b")], 0⟩] ∧
    getQueuedMutations (queueMutation ⟨.insert, "trips", []⟩ (flushMutationQueue
        (fun c => match c with
          | .update _ _ _ => .resolved none (some (.vstr "err"))
          | _ => .resolved none none)
        ⟨[], [], some [⟨1, .insert, "trips", [("name", .vstr "a")], 0⟩,
          ⟨2, .update, "trips", [("id", .vstr "t1"), ("name", .vstr "b")], 0⟩,
          ⟨3, .delete, "trips", [("id", .vstr "t2")], 0⟩], 10, 5⟩).state) =
      [⟨2, .update, "trips", [("id", .vstr "t1"), ("name", .vstr "b")], 0⟩,
       ⟨(flushMutationQueue
          (fun c => match c with
            | .update _ _ _ => .resolved none (some (.vstr "err"))
            | _ => .resolved none none)
          ⟨[], [], some [⟨1, .insert, "trips", [("name", .vstr "a")], 0⟩,
            ⟨2, .update, "trips", [("id", .vstr "t1"), ("name", .vstr "b")], 0⟩,
            ⟨3, .delete, "trips", [("id", .vstr "t2")], 0⟩], 10, 5⟩).state.nextId,
        MutationType.insert, "trips", [],
        (flushMutationQueue
          (fun c => match c with
            | .update _ _ _ => .resolved none (some (.vstr "err"))
            | _ => .resolved none none)
          ⟨[], [], some [⟨1, .insert, "trips", [("name", .vstr "a")], 0⟩,
            ⟨2, .update, "trips", [("id", .vstr "t1"), ("name", .vstr "b")], 0⟩,
            ⟨3, .delete, "trips", [("id", .vstr "t2")], 0⟩], 10, 5⟩).state.now⟩] :=
  drain_three_second_fails _ _ _ _ _ _ rfl
    (by decide) (by decide) (by decide) rfl rfl rfl

/-- Each single enqueue preserves queue well-formedness: the fresh id is
above every stored id, so distinctness is kept and the bound advances. -/
theorem queueMutation_wf (m : MutationInput) (s : OfflineState) (h : QueueWF s) :
    QueueWF (queueMutation m s) := by
  obtain ⟨hnd, hlt⟩ := h
  constructor
  · have e : getQueuedMutations (queueMutation m s) =
        getQueuedMutations s ++ [⟨s.nextId, m.type, m.table, m.payload, s.now⟩] := rfl
    rw [e, List.map_append]
    refine List.Nodup.append hnd (List.nodup_singleton _) ?_
    intro a ha hb
    simp only [List.map_cons, List.map_nil, List.mem_singleton] at hb
    subst hb
    rcases List.mem_map.mp ha with ⟨mm, hmm, hid⟩
    have hlt' := hlt mm hmm
    have hid' : mm.id = s.nextId := hid
    omega
  · intro mm hmm
    have hmm' : mm ∈ getQueuedMutations s ++
        [⟨s.nextId, m.type, m.table, m.payload, s.now⟩] := hmm
    rcases List.mem_append.mp hmm' with h' | h'
    · exact Nat.lt_succ_of_lt (hlt mm h')
    · simp only [List.mem_singleton] at h'
      subst h'
      exact Nat.lt_succ_self _

/-- Claim C4: a sequence of enqueues appends its mutations at the end of the
queue in call order, each with a fresh id and the enqueue-time stamp, and
`listAll` afterwards returns every previously queued entry followed by the
new ones, all ids distinct — nothing dropped or reordered. -/
theorem enqueue_appends_in_order_with_fresh_ids (ms : List MutationInput)
    (s : OfflineState) (h : QueueWF s) :
    getQueuedMutations (enqueueList ms s) =
      getQueuedMutations s ++ mkEntries ms s.nextId s.now ∧
    ((getQueuedMutations (enqueueList ms s)).map (fun m => m.id)).Nodup := by
  induction ms generalizing s with
  | nil => exact ⟨by simp [enqueueList, mkEntries], h.1⟩
  | cons m rest ih =>
    obtain ⟨e, nd⟩ := ih (queueMutation m s) (queueMutation_wf m s h)
    have e' : getQueuedMutations (enqueueList (m :: rest) s) =
        (getQueuedMutations s ++ [⟨s.nextId, m.type, m.table, m.payload, s.now⟩]) ++
          mkEntries rest (s.nextId + 1) s.now := e
    refine ⟨?_, nd⟩
    rw [e']
    simp [mkEntries]

/-- Witness for C4: two enqueues on the pristine store. -/
theorem enqueue_appends_in_order_witness :
    getQueuedMutations (enqueueList
        [⟨.insert, "trips", []⟩, ⟨.delete, "itinerary_items", [("id", .vstr "x")]⟩]
        emptyOff) =
      getQueuedMutations emptyOff ++ mkEntries
        [⟨.insert, "trips", []⟩, ⟨.delete, "itinerary_items", [("id", .vstr "x")]⟩]
        emptyOff.nextId emptyOff.now ∧
    ((getQueuedMutations (enqueueList
        [⟨.insert, "trips", []⟩, ⟨.delete, "itinerary_items", [("id", .vstr "x")]⟩]
        emptyOff)).map (fun m => m.id)).Nodup :=
  enqueue_appends_in_order_with_fresh_ids _ emptyOff
    ⟨by simp [getQueuedMutations, emptyOff], by simp [getQueuedMutations, emptyOff]⟩

/-- Claim C2 (counterexample): `createTrip` invoked offline on an empty trip
list completes without error and enqueues the insert mutation, yet the
in-memory state stays `[]` — the screen does not reflect the edit, so the
claim that every offline write "applies an optimistic update to in-memory UI
state (so the state immediately reflects the edit)" is false for create
operations. -/
theorem createTrip_offline_no_optimistic_update :
    (createTrip false remoteAllOk (some "u1") "UTC"
        [("name", .vstr "Kyoto"), ("start_date", .vstr "2026-04-01"),
         ("end_date", .vstr "2026-04-05")] [] emptyOff).thrown = none ∧
    (createTrip false remoteAllOk (some "u1") "UTC"
        [("name", .vstr "Kyoto"), ("start_date", .vstr "2026-04-01"),
         ("end_date", .vstr "2026-04-05")] [] emptyOff).state = [] ∧
    getQueuedMutations (createTrip false remoteAllOk (some "u1") "UTC"
        [("name", .vstr "Kyoto"), ("start_date", .vstr "2026-04-01"),
         ("end_date", .vstr "2026-04-05")] [] emptyOff).off =
      [⟨0, .insert, "trips",
        [("name", .vstr "Kyoto"), ("start_date", .vstr "2026-04-01"),
         ("end_date", .vstr "2026-04-05"), ("timezone", .vstr "UTC"),
         ("created_by", .vstr "u1")], 0⟩] :=
  ⟨rfl, rfl, rfl⟩

/-- Claim C2 (amended): every write operation invoked while offline enqueues
the equivalent mutation at the end of the queue and performs no remote call
and throws nothing; the update, delete and reorder operations also apply the
optimistic update to the in-memory state, while the create operations
(`createTrip`, `addItem`) leave the in-memory state unchanged and only
enqueue. -/
theorem offline_writes_enqueue_without_await
    (remote : Remote) (uid deviceTz tripId dayIdS itemId : String)
    (trip updates updatesD updatesI item : Obj) (dayId : Option String)
    (trips days items reordered : List JsValue) (off : OfflineState) :
    (createTrip false remote (some uid) deviceTz trip trips off).calls = [] ∧
    (createTrip false remote (some uid) deviceTz trip trips off).thrown = none ∧
    (createTrip false remote (some uid) deviceTz trip trips off).state = trips ∧
    getQueuedMutations (createTrip false remote (some uid) deviceTz trip trips off).off =
      getQueuedMutations off ++
        [⟨off.nextId, .insert, "trips", createTripPayload deviceTz uid trip, off.now⟩] ∧
    (updateTrip false remote tripId updates trips off).calls = [] ∧
    (updateTrip false remote tripId updates trips off).thrown = none ∧
    (updateTrip false remote tripId updates trips off).state =
      trips.map (fun t =>
        if jsIsStr (objGetV t "id") tripId then jsSpreadMerge t updates else t) ∧
    getQueuedMutations (updateTrip false remote tripId updates trips off).off =
      getQueuedMutations off ++
        [⟨off.nextId, .update, "trips", objMerge [("id", .vstr tripId)] updates, off.now⟩] ∧
    (deleteTrip false remote tripId trips off).calls = [] ∧
    (deleteTrip false remote tripId trips off).thrown = none ∧
    (deleteTrip false remote tripId trips off).state =
      trips.filter (fun t => !(jsIsStr (objGetV t "id") tripId)) ∧
    getQueuedMutations (deleteTrip false remote tripId trips off).off =
      getQueuedMutations off ++
        [⟨off.nextId, .delete, "trips", [("id", .vstr tripId)], off.now⟩] ∧
    (updateDay false remote dayIdS updatesD days off).calls = [] ∧
    (updateDay false remote dayIdS updatesD days off).thrown = none ∧
    (updateDay false remote dayIdS updatesD days off).state =
      days.map (fun dv =>
        if jsIsStr (objGetV dv "id") dayIdS then jsSpreadMerge dv updatesD else dv) ∧
    getQueuedMutations (updateDay false remote dayIdS updatesD days off).off =
      getQueuedMutations off ++
        [⟨off.nextId, .update, "trip_days", objMerge [("id", .vstr dayIdS)] updatesD, off.now⟩] ∧
    (addItem false remote dayId item items off).calls = [] ∧
    (addItem false remote dayId item items off).thrown = none ∧
    (addItem false remote dayId item items off).state = items ∧
    getQueuedMutations (addItem false remote dayId item items off).off =
      getQueuedMutations off ++
        [⟨off.nextId, .insert, "itinerary_items", addItemRecord dayId item items, off.now⟩] ∧
    (updateItem false remote itemId updatesI items off).calls = [] ∧
    (updateItem false remote itemId updatesI items off).thrown = none ∧
    (updateItem false remote itemId updatesI items off).state =
      items.map (fun i =>
        if jsIsStr (objGetV i "id") itemId then jsSpreadMerge i updatesI else i) ∧
    getQueuedMutations (updateItem false remote itemId updatesI items off).off =
      getQueuedMutations off ++
        [⟨off.nextId, .update, "itinerary_items",
          objMerge [("id", .vstr itemId)] updatesI, off.now⟩] ∧
    (deleteItem false remote itemId items off).calls = [] ∧
    (deleteItem false remote itemId items off).thrown = none ∧
    (deleteItem false remote itemId items off).state =
      items.filter (fun i => !(jsIsStr (objGetV i "id") itemId)) ∧
    getQueuedMutations (deleteItem false remote itemId items off).off =
      getQueuedMutations off ++
        [⟨off.nextId, .delete, "itinerary_items", [("id", .vstr itemId)], off.now⟩] ∧
    (reorderItems false remote reordered off).calls = [] ∧
    (reorderItems false remote reordered off).thrown = none ∧
    (reorderItems false remote reordered off).state = reorderOptimistic reordered ∧
    getQueuedMutations (reorderItems false remote reordered off).off =
      getQueuedMutations off ++
        [⟨off.nextId, .reorder, "itinerary_items",
          [("items", .varr ((reorderUpdates reordered).map JsValue.vobj))], off.now⟩] :=
  ⟨rfl, rfl, rfl, rfl, rfl, rfl, rfl, rfl, rfl, rfl, rfl, rfl, rfl, rfl, rfl, rfl,
   rfl, rfl, rfl, rfl, rfl, rfl, rfl, rfl, rfl, rfl, rfl, rfl, rfl, rfl, rfl, rfl⟩

/-- The online write pattern throws exactly the observed remote error and
leaves the state at its initial value. -/
theorem onlineWrite_error {σ : Type} (remote : Remote) (c : RemoteCall)
    (stInit stOk : σ) (off : OfflineState) (e : JsValue)
    (h : resultError (remote c) = some e) :
    onlineWrite remote c stInit stOk off = ⟨some e, stInit, off, [c]⟩ := by
  cases hr : remote c with
  | rejected e' =>
    rw [hr] at h
    simp only [resultError, Option.some.injEq] at h
    subst h
    simp [onlineWrite, hr]
  | resolved d err =>
    rw [hr] at h
    simp only [resultError] at h
    subst h
    simp [onlineWrite, hr]

/-- The online write pattern succeeds silently and moves to the new state
when the remote call reports no error. -/
theorem onlineWrite_ok {σ : Type} (remote : Remote) (c : RemoteCall)
    (stInit stOk : σ) (off : OfflineState)
    (h : resultError (remote c) = none) :
    onlineWrite remote c stInit stOk off = ⟨none, stOk, off, [c]⟩ := by
  cases hr : remote c with
  | rejected e' =>
    rw [hr] at h
    simp [resultError] at h
  | resolved d err =>
    rw [hr] at h
    simp only [resultError] at h
    subst h
    simp [onlineWrite, hr]

/-- The online insert pattern throws exactly the observed remote error and
leaves the state at its initial value. -/
theorem onlineInsert_error {σ : Type} (remote : Remote) (c : RemoteCall)
    (stInit : σ) (stOk : Option JsValue → σ) (off : OfflineState) (e : JsValue)
    (h : resultError (remote c) = some e) :
    onlineInsert remote c stInit stOk off = ⟨some e, stInit, off, [c]⟩ := by
  cases hr : remote c with
  | rejected e' =>
    rw [hr] at h
    simp only [resultError, Option.some.injEq] at h
    subst h
    simp [onlineInsert, hr]
  | resolved d err =>
    rw [hr] at h
    simp only [resultError] at h
    subst h
    simp [onlineInsert, hr]

/-- The online insert pattern passes the returned row to the state update
when the remote call reports no error. -/
theorem onlineInsert_ok {σ : Type} (remote : Remote) (c : RemoteCall)
    (stInit : σ) (stOk : Option JsValue → σ) (off : OfflineState)
    (d : Option JsValue) (h : remote c = .resolved d none) :
    onlineInsert remote c stInit stOk off = ⟨none, stOk d, off, [c]⟩ := by
  simp [onlineInsert, h]

/-- A backend that never rejects makes the reorder persistence loop complete
without throwing, whatever `error` members its resolved results carry. -/
theorem reorderLoop_no_reject (remote : Remote)
    (h : ∀ c e, remote c ≠ .rejected e) (l : List Obj) :
    (reorderLoop remote l).1 = none := by
  induction l with
  | nil => rfl
  | cons u rest ih =>
    simp only [reorderLoop]
    cases hr : remote (RemoteCall.update "itinerary_items"
        [("sort_order", objGet u "sort_order")] (objGet u "id")) with
    | rejected e => exact absurd hr (h _ _)
    | resolved d e => simpa [hr] using ih

/-- Claim C6 (counterexample): `reorderItems` invoked online against a
backend whose update call resolves with a non-null `error` throws nothing
(`thrown = none`) and leaves the optimistically reordered state in place
(the item's `sort_order` changed from 5 to 0) — so the claim that every
online write propagates a reported remote error and leaves the in-memory
state unchanged is false for the reorder operation. -/
theorem reorder_online_swallows_reported_error :
    (reorderItems true remoteAllError
        [.vobj [("id", .vstr "i1"), ("title", .vstr "Lunch"), ("sort_order", .vnum 5)]]
        emptyOff).thrown = none ∧
    (reorderItems true remoteAllError
        [.vobj [("id", .vstr "i1"), ("title", .vstr "Lunch"), ("sort_order", .vnum 5)]]
        emptyOff).state =
      [.vobj [("id", .vstr "i1"), ("title", .vstr "Lunch"), ("sort_order", .vnum 0)]] ∧
    (reorderItems true remoteAllError
        [.vobj [("id", .vstr "i1"), ("title", .vstr "Lunch"), ("sort_order", .vnum 5)]]
        emptyOff).calls =
      [.update "itinerary_items" [("sort_order", .vnum 0)] (.vstr "i1")] :=
  ⟨rfl, rfl, rfl⟩

/-- Claim C6 (amended): for every create, update and delete operation
invoked while online, a remote error of either kind (rejected promise or
resolved non-null `error`) is thrown to the caller with the in-memory state,
the durable store and the optimistic state untouched, and on success the
in-memory state is updated to the edit (`createTrip` refreshes it from the
server's selected rows); the exception is `reorderItems`, which sets the
optimistic reordering before persisting and never inspects the per-item
update results, so against a backend that never rejects it throws nothing
regardless of reported errors. -/
theorem online_write_error_propagation
    (remote : Remote) (uid deviceTz tripId dayIdS itemId : String)
    (trip updates updatesD updatesI item : Obj) (dayId : Option String)
    (trips days items reordered rows : List JsValue) (off : OfflineState)
    (e : JsValue) (d : Option JsValue) (row : Obj) :
    (resultError (remote (.update "trips" updates (.vstr tripId))) = some e →
      updateTrip true remote tripId updates trips off =
        ⟨some e, trips, off, [.update "trips" updates (.vstr tripId)]⟩) ∧
    (resultError (remote (.update "trips" updates (.vstr tripId))) = none →
      updateTrip true remote tripId updates trips off =
        ⟨none, trips.map (fun t =>
            if jsIsStr (objGetV t "id") tripId then jsSpreadMerge t updates else t),
          off, [.update "trips" updates (.vstr tripId)]⟩) ∧
    (resultError (remote (.delete "trips" (.vstr tripId))) = some e →
      deleteTrip true remote tripId trips off =
        ⟨some e, trips, off, [.delete "trips" (.vstr tripId)]⟩) ∧
    (resultError (remote (.delete "trips" (.vstr tripId))) = none →
      deleteTrip true remote tripId trips off =
        ⟨none, trips.filter (fun t => !(jsIsStr (objGetV t "id") tripId)),
          off, [.delete "trips" (.vstr tripId)]⟩) ∧
    (resultError (remote (.update "trip_days" updatesD (.vstr dayIdS))) = some e →
      updateDay true remote dayIdS updatesD days off =
        ⟨some e, days, off, [.update "trip_days" updatesD (.vstr dayIdS)]⟩) ∧
    (resultError (remote (.update "trip_days" updatesD (.vstr dayIdS))) = none →
      updateDay true remote dayIdS updatesD days off =
        ⟨none, days.map (fun dv =>
            if jsIsStr (objGetV dv "id") dayIdS then jsSpreadMerge dv updatesD else dv),
          off, [.update "trip_days" updatesD (.vstr dayIdS)]⟩) ∧
    (resultError (remote (.update "itinerary_items" updatesI (.vstr itemId))) = some e →
      updateItem true remote itemId updatesI items off =
        ⟨some e, items, off, [.update "itinerary_items" updatesI (.vstr itemId)]⟩) ∧
    (resultError (remote (.update "itinerary_items" updatesI (.vstr itemId))) = none →
      updateItem true remote itemId updatesI items off =
        ⟨none, items.map (fun i =>
            if jsIsStr (objGetV i "id") itemId then jsSpreadMerge i updatesI else i),
          off, [.update "itinerary_items" updatesI (.vstr itemId)]⟩) ∧
    (resultError (remote (.delete "itinerary_items" (.vstr itemId))) = some e →
      deleteItem true remote itemId items off =
        ⟨some e, items, off, [.delete "itinerary_items" (.vstr itemId)]⟩) ∧
    (resultError (remote (.delete "itinerary_items" (.vstr itemId))) = none →
      deleteItem true remote itemId items off =
        ⟨none, items.filter (fun i => !(jsIsStr (objGetV i "id") itemId)),
          off, [.delete "itinerary_items" (.vstr itemId)]⟩) ∧
    (resultError (remote (.insert "itinerary_items" (addItemRecord dayId item items))) = some e →
      addItem true remote dayId item items off =
        ⟨some e, items, off, [.insert "itinerary_items" (addItemRecord dayId item items)]⟩) ∧
    (remote (.insert "itinerary_items" (addItemRecord dayId item items)) =
        .resolved (some (.vobj row)) none →
      addItem true remote dayId item items off =
        ⟨none, sortByKey itemSortKey (items ++ [.vobj row]), off,
          [.insert "itinerary_items" (addItemRecord dayId item items)]⟩) ∧
    (resultError (remote (.insert "trips" (createTripPayload deviceTz uid trip))) = some e →
      createTrip true remote (some uid) deviceTz trip trips off =
        ⟨some e, trips, off, [.insert "trips" (createTripPayload deviceTz uid trip)]⟩) ∧
    (remote (.insert "trips" (createTripPayload deviceTz uid trip)) = .resolved d none →
      remote (.select "trips") = .resolved (some (.varr rows)) none →
      createTrip true remote (some uid) deviceTz trip trips off =
        ⟨none, rows, off,
          [.insert "trips" (createTripPayload deviceTz uid trip), .select "trips"]⟩) ∧
    ((∀ c ev, remote c ≠ .rejected ev) →
      reorderItems true remote reordered off =
        ⟨none, reorderOptimistic reordered, off,
          (reorderLoop remote (reorderUpdates reordered)).2⟩) := by
  refine ⟨fun h => onlineWrite_error _ _ _ _ _ _ h,
    fun h => onlineWrite_ok _ _ _ _ _ h,
    fun h => onlineWrite_error _ _ _ _ _ _ h,
    fun h => onlineWrite_ok _ _ _ _ _ h,
    fun h => onlineWrite_error _ _ _ _ _ _ h,
    fun h => onlineWrite_ok _ _ _ _ _ h,
    fun h => onlineWrite_error _ _ _ _ _ _ h,
    fun h => onlineWrite_ok _ _ _ _ _ h,
    fun h => onlineWrite_error _ _ _ _ _ _ h,
    fun h => onlineWrite_ok _ _ _ _ _ h,
    fun h => onlineInsert_error _ _ _ _ _ _ h,
    fun h => onlineInsert_ok _ _ _ _ _ _ h,
    ?_, ?_, ?_⟩
  · intro h
    cases hr : remote (.insert "trips" (createTripPayload deviceTz uid trip)) with
    | rejected ev =>
      rw [hr] at h
      simp only [resultError, Option.some.injEq] at h
      subst h
      simp [createTrip, hr]
    | resolved dv err =>
      rw [hr] at h
      simp only [resultError] at h
      subst h
      simp [createTrip, hr]
  · intro h1 h2
    simp [createTrip, h1, h2]
  · intro h
    have ht := reorderLoop_no_reject remote h (reorderUpdates reordered)
    rcases hp : reorderLoop remote (reorderUpdates reordered) with ⟨t, cs⟩
    rw [hp] at ht
    have ht' : t = none := ht
    subst ht'
    simp [reorderItems, hp]

/-- Witness for C6 at a concrete backend that reports an error on update
calls: `updateItem` online throws that error and leaves the item list and
the offline store untouched. -/
theorem online_write_error_propagation_witness :
    updateItem true
      (fun c => match c with
        | .update _ _ _ => .resolved none (some (.vstr "e1"))
        | _ => .resolved none none)
      "i1" [("title", .vstr "x")] [.vobj [("id", .vstr "i1")]] emptyOff =
      ⟨some (.vstr "e1"), [.vobj [("id", .vstr "i1")]], emptyOff,
       [.update "itinerary_items" [("title", .vstr "x")] (.vstr "i1")]⟩ := by
  obtain ⟨-, -, -, -, -, -, h7, -⟩ :=
    online_write_error_propagation
      (fun c => match c with
        | .update _ _ _ => .resolved none (some (.vstr "e1"))
        | _ => .resolved none none)
      "u" "UTC" "t1" "d1" "i1" [] [] [] [("title", .vstr "x")] [] none
      [] [] [.vobj [("id", .vstr "i1")]] [] [] emptyOff (.vstr "e1") none []
  exact h7 rfl

end Tabi
